import Mathlib

/-!
Shallow embedding of the order-fulfillment and inventory-ledger core of the
`uharvest_vendingm_service` repository (a FastAPI + SQLAlchemy vending-machine
backend), together with proofs settling the frozen claims C1-C10.

Conventions of the embedding:
  * Database UUIDs are modelled as natural numbers (`Uid`); a UUID is only ever
    compared for equality in the modelled code.
  * SQL integer columns are modelled as `Int`.  `Numeric` money columns are
    modelled as `Int` as well (no claim touches arithmetic on prices).
  * A SQLAlchemy `AsyncSession` running inside `get_async_transaction`
    (app/config/database.py, lines 77-86) is modelled by explicit state
    passing of a `DB` value: the transaction body is a function
    `DB → Except PyError (DB × α)`; on `Except.error` the surrounding
    transaction rolls back, i.e. the pre-state is kept, mirroring
    `session.rollback()` followed by the re-raise.
  * Python exception classes from app/utils/exceptions.py are modelled by the
    constructors of `PyError`; each carries the `message` argument, and the
    structured `details` dict is modelled by `ErrDetails`.  Python's
    `TypeError` (not part of that module) gets its own constructor.
  * `datetime` columns are abstracted as their `strftime`-rendered string
    (`Option String`, `none` = NULL); the renderer only ever formats them.
  * Floating point only occurs in `_validate_ingredient_constraints`
    (a percentage); it is modelled with exact rational arithmetic `Rat`.
-/

/-- Database identifier (UUID in the source, abstracted to a natural). -/
abbrev Uid := Nat

/-- Structured contents of the `details` dict attached to the exceptions
raised by the modelled code (app/utils/exceptions.py takes an arbitrary
dict; only these shapes occur in the modelled functions). -/
inductive ErrDetails where
  /-- No details dict / empty details. -/
  | noDetails : ErrDetails
  /-- `details` of the "Insufficient ingredient stock" error raised in
  `MachineDAO.deduct_stock` (machine_dao.py, lines 370-374). -/
  | ingredientStock (ingredient_id : Uid) (required : Int) (available : Option Int) : ErrDetails
  /-- `details` of the "Insufficient addon stock" error raised in
  `MachineDAO.deduct_stock` (machine_dao.py, lines 405-409). -/
  | addonStock (addon_id : Uid) (required : Int) (available : Option Int) : ErrDetails
  /-- `details` of the "Machine is not active" error
  (machine_dao.py, lines 436-440). -/
  | machineStatus (machine_status : String) : ErrDetails
  /-- `details` of the "Machine is currently processing another order" error
  (machine_dao.py, lines 444-448). -/
  | machineBusy (machine_id : Uid) : ErrDetails
  /-- `details` of the "Invalid status transition" error
  (order_dao.py, lines 438-442). -/
  | statusTransition (current_status new_status : String) : ErrDetails
deriving DecidableEq, Repr

/-- Exceptions of app/utils/exceptions.py (one constructor per class that the
modelled code can raise), plus Python's built-in `TypeError`.  The Python
class hierarchy (e.g. `InsufficientStockError` subclasses
`BusinessRuleError`) is flattened into distinct constructors: constructor
identity is class identity. -/
inductive PyError where
  /-- `ValidationError`, error_code VALIDATION_ERROR. -/
  | validationError (message : String) : PyError
  /-- `NotFoundError`, error_code NOT_FOUND. -/
  | notFound (message : String) : PyError
  /-- `ConflictError`, error_code CONFLICT. -/
  | conflictError (message : String) : PyError
  /-- `BusinessRuleError`, error_code BUSINESS_RULE_VIOLATION. -/
  | businessRule (message : String) (details : ErrDetails) : PyError
  /-- `InsufficientStockError`, error_code INSUFFICIENT_STOCK (defined at
  exceptions.py lines 37-41; never raised by the modelled code). -/
  | insufficientStock (message : String) (details : ErrDetails) : PyError
  /-- `MachineUnavailableError`, error_code MACHINE_UNAVAILABLE (defined at
  exceptions.py lines 44-48; never raised by the modelled code). -/
  | machineUnavailable (message : String) (details : ErrDetails) : PyError
  /-- `OrderProcessingError`, error_code ORDER_PROCESSING_ERROR. -/
  | orderProcessing (message : String) : PyError
  /-- `DatabaseError`, error_code DATABASE_ERROR. -/
  | databaseError (message : String) : PyError
  /-- Python's built-in `TypeError` (raised on a call with wrong arity). -/
  | typeError (message : String) : PyError
deriving DecidableEq, Repr

/-- `str(e)` of the exception: every `VendingAPIException` subclass passes its
`message` to `Exception.__init__`, so `str(e)` is the message; the same holds
for `TypeError`. -/
def PyError.message : PyError → String
  | .validationError m => m
  | .notFound m => m
  | .conflictError m => m
  | .businessRule m _ => m
  | .insufficientStock m _ => m
  | .machineUnavailable m _ => m
  | .orderProcessing m => m
  | .databaseError m => m
  | .typeError m => m

/-- Whether a raised error is (exactly) the `InsufficientStockError` class of
exceptions.py lines 37-41. -/
def PyError.isInsufficientStock : PyError → Bool
  | .insufficientStock _ _ => true
  | _ => false

/-- Whether a raised error is (exactly) the `MachineUnavailableError` class of
exceptions.py lines 44-48. -/
def PyError.isMachineUnavailable : PyError → Bool
  | .machineUnavailable _ _ => true
  | _ => false

/-- Whether a raised error is (exactly) the `BusinessRuleError` class
(exceptions.py lines 31-34, not one of its subclasses). -/
def PyError.isBusinessRule : PyError → Bool
  | .businessRule _ _ => true
  | _ => false

/-- Row of `vending_machines` (app/models/machine.py, `VendingMachine`).
Only the columns read by the modelled code are kept. -/
structure Machine where
  id : Uid
  status : String
deriving DecidableEq, Repr

/-- Row of `ingredients` (app/models/product.py, `Ingredient`); only the
columns read by the modelled code. -/
structure Ingredient where
  id : Uid
  name : String
  min_qty_g : Int
  max_percent_limit : Rat
deriving DecidableEq, Repr

/-- Row of `addons` (app/models/product.py, `Addon`); only the columns read
by the modelled code. -/
structure Addon where
  id : Uid
  name : String
deriving DecidableEq, Repr

/-- Row of `machine_ingredients` (app/models/machine.py, `MachineIngredient`):
the per-machine ingredient stock ledger. -/
structure IngStockRow where
  machine_id : Uid
  ingredient_id : Uid
  qty_available_g : Int
  low_stock_threshold_g : Int
deriving DecidableEq, Repr

/-- Row of `machine_addons` (app/models/machine.py, `MachineAddon`):
the per-machine add-on stock ledger. -/
structure AddStockRow where
  machine_id : Uid
  addon_id : Uid
  qty_available : Int
  low_stock_threshold : Int
deriving DecidableEq, Repr

/-- Row of `orders` (app/models/order.py, `Order`).  `machine_id` is nullable
(ON DELETE SET NULL); `created_at` is the strftime-rendered timestamp. -/
structure OrderRow where
  id : Uid
  machine_id : Option Uid
  user_id : Option Uid
  session_id : Option String
  status : String
  total_price : Int
  total_calories : Int
  created_at : Option String
deriving DecidableEq, Repr

/-- Row of `order_items` (app/models/order.py, `OrderItem`).  `ingredient_id`
is nullable (ON DELETE SET NULL). -/
structure OrderItemRow where
  order_id : Uid
  ingredient_id : Option Uid
  qty_ml : Int
  grams_used : Int
  calories : Int
deriving DecidableEq, Repr

/-- Row of `order_addons` (app/models/order.py, `OrderAddon`).  `addon_id` is
nullable (ON DELETE SET NULL). -/
structure OrderAddonRow where
  order_id : Uid
  addon_id : Option Uid
  qty : Int
  calories : Int
deriving DecidableEq, Repr

/-- The relational state touched by the modelled code. `next_id` supplies
fresh primary keys for inserted orders. -/
structure DB where
  machines : List Machine
  ingredients : List Ingredient
  addons : List Addon
  machine_ingredients : List IngStockRow
  machine_addons : List AddStockRow
  orders : List OrderRow
  order_items : List OrderItemRow
  order_addons : List OrderAddonRow
  next_id : Uid
deriving DecidableEq, Repr

/-- One entry of the `ingredients` list of an `OrderCreateRequest`
(app/schemas/order.py, `OrderItemRequest`): keys ingredient_id, grams_used,
calories.  The schema has no qty_ml key, so `_create_order_item`'s
`ingredient_data.get('qty_ml', 0)` always yields 0. -/
structure IngredientReq where
  ingredient_id : Uid
  grams_used : Int
  calories : Int
deriving DecidableEq, Repr

/-- One entry of the `addons` list of an `OrderCreateRequest`
(app/schemas/order.py, `OrderAddonRequest`). -/
structure AddonReq where
  addon_id : Uid
  qty : Int
  calories : Int
deriving DecidableEq, Repr

/-- One entry of the `liquids` list (free-form dicts in the source;
`_generate_order_string` reads keys liquid_name and qty with `.get`
defaults, so each key is modelled as an `Option`). -/
structure Liquid where
  liquid_name : Option String
  qty : Option String
deriving DecidableEq, Repr

/-- `OrderCreateRequest` (app/schemas/order.py, lines 23-39). -/
structure OrderCreateRequest where
  machine_id : Uid
  total_price : Int
  total_calories : Int
  status : String
  session_id : Option String
  ingredients : List IngredientReq
  addons : List AddonReq
  liquids : List Liquid
deriving DecidableEq, Repr

/-- `session.get(VendingMachine, id)` / `BaseDAO.get_by_id`: first machine row
with the given primary key. -/
def getMachine (db : DB) (machine_id : Uid) : Option Machine :=
  db.machines.find? (fun m => m.id == machine_id)

/-- `session.get(Ingredient, id)`. -/
def getIngredient (db : DB) (ingredient_id : Uid) : Option Ingredient :=
  db.ingredients.find? (fun i => i.id == ingredient_id)

/-- `session.get(Addon, id)`. -/
def getAddon (db : DB) (addon_id : Uid) : Option Addon :=
  db.addons.find? (fun a => a.id == addon_id)

/-- `session.get(Order, id)`. -/
def getOrder (db : DB) (order_id : Uid) : Option OrderRow :=
  db.orders.find? (fun o => o.id == order_id)

/-- The `SELECT qty_available_g FROM machine_ingredients WHERE machine_id = m
AND ingredient_id = i` + `.scalar()` of machine_dao.py lines 359-368:
`none` when no row matches. -/
def ingStockQty (db : DB) (machine_id ingredient_id : Uid) : Option Int :=
  (db.machine_ingredients.find?
    (fun r => r.machine_id == machine_id && r.ingredient_id == ingredient_id)).map
    (fun r => r.qty_available_g)

/-- The corresponding `SELECT qty_available FROM machine_addons ...` of
machine_dao.py lines 394-403. -/
def addStockQty (db : DB) (machine_id addon_id : Uid) : Option Int :=
  (db.machine_addons.find?
    (fun r => r.machine_id == machine_id && r.addon_id == addon_id)).map
    (fun r => r.qty_available)

/-- `UPDATE machine_ingredients SET qty_available_g = qty_available_g + d
WHERE machine_id = m AND ingredient_id = i` (every matching row is updated;
a machine_id of NULL matches no row because the column is NOT NULL).
Used with `d < 0` by `deduct_stock` (machine_dao.py lines 377-386) and with
`d > 0` by `_handle_order_cancellation` (order_dao.py lines 456-465). -/
def shiftIngStock (db : DB) (machine_id : Option Uid) (ingredient_id : Uid) (d : Int) : DB :=
  let upd : IngStockRow → IngStockRow := fun r =>
    if some r.machine_id == machine_id && r.ingredient_id == ingredient_id then
      { r with qty_available_g := r.qty_available_g + d }
    else r
  { db with machine_ingredients := db.machine_ingredients.map upd }

/-- The analogous `UPDATE machine_addons SET qty_available = qty_available + d
...` (machine_dao.py lines 412-421; order_dao.py lines 470-479). -/
def shiftAddStock (db : DB) (machine_id : Option Uid) (addon_id : Uid) (d : Int) : DB :=
  let upd : AddStockRow → AddStockRow := fun r =>
    if some r.machine_id == machine_id && r.addon_id == addon_id then
      { r with qty_available := r.qty_available + d }
    else r
  { db with machine_addons := db.machine_addons.map upd }

/-- Ingredient half of `MachineDAO.deduct_stock` (machine_dao.py lines
353-386): for each requested ingredient, read the current stock; raise
`BusinessRuleError("Insufficient ingredient stock", ...)` if the row is
missing or holds less than `grams_used`; otherwise subtract. -/
def deductIngredientsLoop (db : DB) (machine_id : Uid) :
    List IngredientReq → Except PyError DB
  | [] => .ok db
  | req :: rest =>
    match ingStockQty db machine_id req.ingredient_id with
    | none =>
      .error (.businessRule "Insufficient ingredient stock"
        (.ingredientStock req.ingredient_id req.grams_used none))
    | some current_qty =>
      if current_qty < req.grams_used then
        .error (.businessRule "Insufficient ingredient stock"
          (.ingredientStock req.ingredient_id req.grams_used (some current_qty)))
      else
        deductIngredientsLoop
          (shiftIngStock db (some machine_id) req.ingredient_id (-req.grams_used))
          machine_id rest

/-- Add-on half of `MachineDAO.deduct_stock` (machine_dao.py lines 388-421). -/
def deductAddonsLoop (db : DB) (machine_id : Uid) :
    List AddonReq → Except PyError DB
  | [] => .ok db
  | req :: rest =>
    match addStockQty db machine_id req.addon_id with
    | none =>
      .error (.businessRule "Insufficient addon stock"
        (.addonStock req.addon_id req.qty none))
    | some current_qty =>
      if current_qty < req.qty then
        .error (.businessRule "Insufficient addon stock"
          (.addonStock req.addon_id req.qty (some current_qty)))
      else
        deductAddonsLoop
          (shiftAddStock db (some machine_id) req.addon_id (-req.qty))
          machine_id rest

/-- `MachineDAO.deduct_stock` (machine_dao.py lines 344-426): iterate the
ingredient requests, then the add-on requests; the first insufficient entry
raises.  The function takes the session (our `db`), machine_id, ingredients
and addons - four parameters besides `self`. -/
def deduct_stock (db : DB) (machine_id : Uid) (ingredients : List IngredientReq)
    (addons : List AddonReq) : Except PyError DB :=
  match deductIngredientsLoop db machine_id ingredients with
  | .error e => .error e
  | .ok db1 => deductAddonsLoop db1 machine_id addons

/-- `MachineDAO.check_machine_availability` (machine_dao.py lines 103-125):
False when the machine is missing or not active, otherwise True iff no order
of this machine has status pending or processing. -/
def check_machine_availability (db : DB) (machine_id : Uid) : Bool :=
  match getMachine db machine_id with
  | none => false
  | some machine =>
    if machine.status != "active" then false
    else
      let processing_orders :=
        (db.orders.filter (fun o =>
          o.machine_id == some machine_id &&
            (o.status == "pending" || o.status == "processing"))).length
      processing_orders == 0

/-- `MachineDAO.validate_machine_for_order` (machine_dao.py lines 428-453):
`NotFoundError` when the machine is missing, `BusinessRuleError` when it is
not active or when `check_machine_availability` is False. -/
def validate_machine_for_order (db : DB) (machine_id : Uid) : Except PyError Unit :=
  match getMachine db machine_id with
  | none => .error (.notFound ("Machine " ++ toString machine_id ++ " not found"))
  | some machine =>
    if machine.status != "active" then
      .error (.businessRule
        ("Machine is not active (status: " ++ machine.status ++ ")")
        (.machineStatus machine.status))
    else if !check_machine_availability db machine_id then
      .error (.businessRule "Machine is currently processing another order"
        (.machineBusy machine_id))
    else .ok ()

/-- `OrderDAO._validate_ingredients_exist` (order_dao.py lines 355-366):
raises `NotFoundError` for the first request ingredient id missing from the
catalog. -/
def dao_validate_ingredients_exist (db : DB) :
    List IngredientReq → Except PyError Unit
  | [] => .ok ()
  | req :: rest =>
    match getIngredient db req.ingredient_id with
    | none => .error (.notFound ("Ingredient " ++ toString req.ingredient_id ++ " not found"))
    | some _ => dao_validate_ingredients_exist db rest

/-- `OrderDAO._validate_addons_exist` (order_dao.py lines 368-379). -/
def dao_validate_addons_exist (db : DB) :
    List AddonReq → Except PyError Unit
  | [] => .ok ()
  | req :: rest =>
    match getAddon db req.addon_id with
    | none => .error (.notFound ("Addon " ++ toString req.addon_id ++ " not found"))
    | some _ => dao_validate_addons_exist db rest

/-- `BaseDAO.create` applied to `Order` (base_dao.py lines 28-43, called from
order_dao.py line 68): construct the row, add it to the session, flush.
The fresh primary key comes from `next_id`; `created_at` is the insertion
timestamp, abstracted as `none` (no modelled code reads it on this path). -/
def createOrderRow (db : DB) (machine_id : Uid) (user_id : Option Uid)
    (session_id : Option String) (total_price : Int) (total_calories : Int)
    (status : String) : DB × OrderRow :=
  let order : OrderRow :=
    { id := db.next_id, machine_id := some machine_id, user_id := user_id,
      session_id := session_id, status := status, total_price := total_price,
      total_calories := total_calories, created_at := none }
  ({ db with orders := db.orders ++ [order], next_id := db.next_id + 1 }, order)

/-- `OrderDAO._create_order_item` (order_dao.py lines 393-409) for each
request ingredient: the request dict has no qty_ml key, so
`ingredient_data.get('qty_ml', 0)` is 0. -/
def reqToOrderItem (order_id : Uid) (req : IngredientReq) : OrderItemRow :=
  { order_id := order_id, ingredient_id := some req.ingredient_id,
    qty_ml := 0, grams_used := req.grams_used, calories := req.calories }

/-- `OrderDAO._create_order_addon` (order_dao.py lines 411-426). -/
def reqToOrderAddon (order_id : Uid) (req : AddonReq) : OrderAddonRow :=
  { order_id := order_id, addon_id := some req.addon_id,
    qty := req.qty, calories := req.calories }

/-- Insertion loops of order_dao.py lines 70-76. -/
def insertOrderLines (db : DB) (order_id : Uid) (ingredients : List IngredientReq)
    (addons : List AddonReq) : DB :=
  { db with
    order_items := db.order_items ++ ingredients.map (reqToOrderItem order_id),
    order_addons := db.order_addons ++ addons.map (reqToOrderAddon order_id) }

/-- The `TypeError` Python raises at order_dao.py line 79: the call
`self.machine_dao.deduct_stock(session, machine_id, ingredients, addons,
session_id)` passes five positional arguments to a method declared with four
(machine_dao.py lines 344-350), so the deduction body never runs. -/
def deductStockArityError : PyError :=
  .typeError "MachineDAO.deduct_stock() takes 5 positional arguments but 6 were given"

/-- Body of the `try` block of `OrderDAO.create_order_with_items`
(order_dao.py lines 47-82): validate the machine, validate that the request
items exist, insert the order row and its lines, then call `deduct_stock` -
a call that raises `TypeError` because of the extra `session_id` argument
(order_dao.py line 79), so the body always ends in an exception.
`_validate_stock_availability` (lines 381-391) just returns True. -/
def create_order_with_items_body (db : DB) (machine_id : Uid)
    (user_id : Option Uid) (session_id : Option String) (total_price : Int)
    (total_calories : Int) (status : String) (ingredients : List IngredientReq)
    (addons : List AddonReq) : Except PyError (DB × OrderRow) :=
  match validate_machine_for_order db machine_id with
  | .error e => .error e
  | .ok _ =>
    match dao_validate_ingredients_exist db ingredients with
    | .error e => .error e
    | .ok _ =>
      match dao_validate_addons_exist db addons with
      | .error e => .error e
      | .ok _ =>
        let (db1, order) := createOrderRow db machine_id user_id session_id
          total_price total_calories status
        let _db2 := insertOrderLines db1 order.id ingredients addons
        .error deductStockArityError

/-- `OrderDAO.create_order_with_items` (order_dao.py lines 33-86): the
`except` clause wraps every exception into
`OrderProcessingError("Failed to create order: " + str(e))`. -/
def create_order_with_items (db : DB) (machine_id : Uid) (user_id : Option Uid)
    (session_id : Option String) (total_price : Int) (total_calories : Int)
    (status : String) (ingredients : List IngredientReq)
    (addons : List AddonReq) : Except PyError (DB × OrderRow) :=
  match create_order_with_items_body db machine_id user_id session_id
      total_price total_calories status ingredients addons with
  | .ok r => .ok r
  | .error e => .error (.orderProcessing ("Failed to create order: " ++ e.message))

/-- The `allowed_transitions` dict of `OrderDAO._validate_status_transition`
(order_dao.py lines 430-436). -/
def allowed_transitions : List (String × List String) :=
  [("pending", ["processing", "cancelled"]),
   ("processing", ["completed", "failed", "cancelled"]),
   ("completed", []),
   ("failed", []),
   ("cancelled", [])]

/-- `allowed_transitions.get(current_status, [])` (order_dao.py line 438). -/
def allowedTargets (current_status : String) : List String :=
  ((allowed_transitions.find? (fun p => p.1 == current_status)).map
    (fun p => p.2)).getD []

/-- `OrderDAO._validate_status_transition` (order_dao.py lines 428-444):
raises `BusinessRuleError` when `new_status` is not in the allowed list of
`current_status`. -/
def validate_status_transition (current_status new_status : String) :
    Except PyError Unit :=
  if new_status ∈ allowedTargets current_status then .ok ()
  else
    .error (.businessRule
      ("Invalid status transition from " ++ current_status ++ " to " ++ new_status)
      (.statusTransition current_status new_status))

/-- The `order.status = status; session.flush()` step of
`OrderDAO.update_order_status` (order_dao.py lines 124-128). -/
def setOrderStatus (db : DB) (order_id : Uid) (status : String) : DB :=
  let upd : OrderRow → OrderRow := fun o =>
    if o.id == order_id then { o with status := status } else o
  { db with orders := db.orders.map upd }

/-- `OrderDAO._handle_order_cancellation` (order_dao.py lines 446-483): load
the order; if it is missing, return without change; otherwise, for every
order item whose `ingredient_id` is non-null, add `grams_used` back to the
matching `machine_ingredients` row, and for every order addon whose
`addon_id` is non-null, add `qty` back to the matching `machine_addons`
row.  `_handle_order_failure` (lines 485-487) delegates here. -/
def restoreItemsLoop (machine_id : Option Uid) (db : DB) :
    List OrderItemRow → DB
  | [] => db
  | item :: rest =>
    match item.ingredient_id with
    | none => restoreItemsLoop machine_id db rest
    | some ingredient_id =>
      restoreItemsLoop machine_id
        (shiftIngStock db machine_id ingredient_id item.grams_used) rest

/-- Add-on restoration loop of `_handle_order_cancellation`
(order_dao.py lines 467-479). -/
def restoreAddonsLoop (machine_id : Option Uid) (db : DB) :
    List OrderAddonRow → DB
  | [] => db
  | addon :: rest =>
    match addon.addon_id with
    | none => restoreAddonsLoop machine_id db rest
    | some addon_id =>
      restoreAddonsLoop machine_id
        (shiftAddStock db machine_id addon_id addon.qty) rest

/-- The order items belonging to an order (the `order.order_items`
relationship loaded by `get_order_with_details`). -/
def itemsOfOrder (db : DB) (order_id : Uid) : List OrderItemRow :=
  db.order_items.filter (fun it => it.order_id == order_id)

/-- The order addons belonging to an order (the `order.order_addons`
relationship). -/
def addonsOfOrder (db : DB) (order_id : Uid) : List OrderAddonRow :=
  db.order_addons.filter (fun a => a.order_id == order_id)

/-- `OrderDAO._handle_order_cancellation` (order_dao.py lines 446-483). -/
def handle_order_cancellation (db : DB) (order_id : Uid) : DB :=
  match getOrder db order_id with
  | none => db
  | some order =>
    let db1 := restoreItemsLoop order.machine_id db (itemsOfOrder db order_id)
    restoreAddonsLoop order.machine_id db1 (addonsOfOrder db order_id)

/-- Body of the `try` block of `OrderDAO.update_order_status`
(order_dao.py lines 115-139): load the order (`NotFoundError` if missing),
validate the transition, set the status, then restore stock when the new
status is cancelled or failed; return the refreshed order. -/
def update_order_status_body (db : DB) (order_id : Uid) (status : String) :
    Except PyError (DB × OrderRow) :=
  match getOrder db order_id with
  | none => .error (.notFound ("Order " ++ toString order_id ++ " not found"))
  | some order =>
    match validate_status_transition order.status status with
    | .error e => .error e
    | .ok _ =>
      let db1 := setOrderStatus db order_id status
      let db2 :=
        if status == "cancelled" then handle_order_cancellation db1 order_id
        else if status == "failed" then handle_order_cancellation db1 order_id
        else db1
      .ok (db2, (getOrder db2 order_id).getD { order with status := status })

/-- `OrderDAO.update_order_status` (order_dao.py lines 106-142): the `except`
clause wraps every exception into `OrderProcessingError("Failed to update
order status: " + str(e))`.  On an exception nothing was mutated (the raise
happens before the status assignment), so the pre-state is returned with the
error.  The `payment_status` and `notes` parameters of the source are
accepted but never stored (schemas/order.py lines 45-46) and are omitted. -/
def update_order_status (db : DB) (order_id : Uid) (status : String) :
    (Except PyError OrderRow) × DB :=
  match update_order_status_body db order_id status with
  | .ok (db2, order) => (.ok order, db2)
  | .error e =>
    (.error (.orderProcessing ("Failed to update order status: " ++ e.message)), db)

/-- `OrderService._validate_ingredients_exist` (order_service.py lines
209-221): unlike the DAO twin, raises `ValidationError`. -/
def svc_validate_ingredients_exist (db : DB) :
    List IngredientReq → Except PyError Unit
  | [] => .ok ()
  | req :: rest =>
    match getIngredient db req.ingredient_id with
    | none =>
      .error (.validationError
        ("Ingredient " ++ toString req.ingredient_id ++ " not found"))
    | some _ => svc_validate_ingredients_exist db rest

/-- `OrderService._validate_addons_exist` (order_service.py lines 223-235). -/
def svc_validate_addons_exist (db : DB) :
    List AddonReq → Except PyError Unit
  | [] => .ok ()
  | req :: rest =>
    match getAddon db req.addon_id with
    | none =>
      .error (.validationError ("Addon " ++ toString req.addon_id ++ " not found"))
    | some _ => svc_validate_addons_exist db rest

/-- `total_grams` of `OrderService._validate_ingredient_constraints`
(order_service.py lines 244-247). -/
def totalGrams (ingredients : List IngredientReq) : Int :=
  ingredients.foldl (fun s req => s + req.grams_used) 0

/-- Loop body of `OrderService._validate_ingredient_constraints`
(order_service.py lines 249-270): skip ids missing from the catalog; check
the per-ingredient minimum grams, then the maximum percentage of the basket
(the float division is modelled exactly over `Rat`). -/
def constraintsLoop (db : DB) (total_grams : Int) :
    List IngredientReq → Except PyError Unit
  | [] => .ok ()
  | req :: rest =>
    match getIngredient db req.ingredient_id with
    | none => constraintsLoop db total_grams rest
    | some ingredient =>
      if req.grams_used < ingredient.min_qty_g then
        .error (.validationError
          ("Ingredient " ++ ingredient.name ++ " requires minimum " ++
            toString ingredient.min_qty_g ++ "g, got " ++
            toString req.grams_used ++ "g"))
      else if total_grams > 0 ∧
          (req.grams_used : Rat) / (total_grams : Rat) * 100 >
            ingredient.max_percent_limit then
        .error (.validationError
          ("Ingredient " ++ ingredient.name ++ " exceeds maximum " ++
            toString ingredient.max_percent_limit ++ "% limit"))
      else constraintsLoop db total_grams rest

/-- `OrderService._validate_ingredient_constraints`
(order_service.py lines 237-272). -/
def validate_ingredient_constraints (db : DB)
    (ingredients : List IngredientReq) : Except PyError Unit :=
  constraintsLoop db (totalGrams ingredients) ingredients

/-- `OrderService._validate_order_request` (order_service.py lines 187-207):
machine admission control, referential existence, recipe constraints; all
read-only. -/
def svc_validate_order_request (db : DB) (req : OrderCreateRequest) :
    Except PyError Unit :=
  match validate_machine_for_order db req.machine_id with
  | .error e => .error e
  | .ok _ =>
    match svc_validate_ingredients_exist db req.ingredients with
    | .error e => .error e
    | .ok _ =>
      match svc_validate_addons_exist db req.addons with
      | .error e => .error e
      | .ok _ => validate_ingredient_constraints db req.ingredients

/-- Body of the `async with get_async_transaction()` block of
`OrderService.create_order` (order_service.py lines 42-72): service-side
validation, the DAO call, then rendering and the ROS publish.
`publishErr` is the behaviour of the external
`RosInterface.publish_order_string` channel (ros_interface.py lines 28-33):
`none` means the publish returns normally, `some e` means it raises `e`.
The rendering itself is a pure function and cannot raise here; the
conversion to the response schema is omitted (it builds no state this
development observes, and the branch is unreachable, see
`create_order_with_items_never_ok`). -/
def create_order_txn (publishErr : Option PyError) (db : DB)
    (req : OrderCreateRequest) (session_id : Option String)
    (user_id : Option Uid) : Except PyError (DB × OrderRow) :=
  match svc_validate_order_request db req with
  | .error e => .error e
  | .ok _ =>
    match create_order_with_items db req.machine_id user_id session_id
        req.total_price req.total_calories req.status req.ingredients
        req.addons with
    | .error e => .error e
    | .ok (db2, order) =>
      match publishErr with
      | some e => .error e
      | none => .ok (db2, order)

/-- `OrderService.create_order` (order_service.py lines 34-76) under
`get_async_transaction` (database.py lines 77-86): when the body raises, the
transaction rolls back (the pre-state is kept) and the exception is wrapped
into `OrderProcessingError("Failed to create order: " + str(e))`; when it
returns, the transaction commits.  The returned pair is (result, final
database state). -/
def create_order (publishErr : Option PyError) (db : DB)
    (req : OrderCreateRequest) (session_id : Option String)
    (user_id : Option Uid) : (Except PyError OrderRow) × DB :=
  match create_order_txn publishErr db req session_id user_id with
  | .ok (db2, order) => (.ok order, db2)
  | .error e =>
    (.error (.orderProcessing ("Failed to create order: " ++ e.message)), db)

/-- An element of `order.order_items` as loaded by `get_order_with_details`
(order_dao.py lines 88-104): the line together with its joined `Ingredient`
object (absent when the foreign key is NULL or dangling). -/
structure LoadedOrderItem where
  ingredient : Option Ingredient
  qty_ml : Int
  grams_used : Int
deriving DecidableEq, Repr

/-- An element of `order.order_addons` with its joined `Addon` object. -/
structure LoadedOrderAddon where
  addon : Option Addon
  qty : Int
deriving DecidableEq, Repr

/-- Python's `str.startswith` (kernel-reducible model of Lean's
`String.startsWith`): character-list comparison. -/
def strStartsWith (s p : String) : Bool :=
  p.data.isPrefixOf s.data

/-- Python's `str[:n]` slice (kernel-reducible model of `String.take`):
keep the first `n` characters. -/
def strTake (s : String) (n : Nat) : String :=
  ⟨s.data.take n⟩

/-- Container token of `OrderService._generate_order_string`, step 1
(order_service.py lines 279-293): an empty `session_id` is falsy in Python,
so it keeps the generic container. -/
def containerToken (session_id : Option String) : String :=
  match session_id with
  | none => "1 container"
  | some s =>
    if s == "" then "1 container"
    else if strStartsWith s "smoothie-" then "1 cup"
    else if strStartsWith s "salad-" then "1 bowl"
    else "1 container"

/-- One "dispense" token per ingredient line, step 2 (order_service.py lines
296-308).  `item.qty_ml and item.qty_ml > 0` over an int is `qty_ml > 0`
(0 is falsy), likewise for `grams_used`; an absent ingredient object or an
empty name falls back to "Unknown Item". -/
def itemToken (item : LoadedOrderItem) : String :=
  let ingredient_name :=
    match item.ingredient with
    | some ing => if ing.name == "" then "Unknown Item" else ing.name
    | none => "Unknown Item"
  if item.qty_ml > 0 then
    "dispense " ++ ingredient_name ++ " " ++ toString item.qty_ml ++ "ml"
  else if item.grams_used > 0 then
    "dispense " ++ ingredient_name ++ " " ++ toString item.grams_used ++ "g"
  else
    "dispense " ++ ingredient_name

/-- One "add" token per add-on line, step 3 (order_service.py lines 311-318);
`addon.qty or 1` turns a zero quantity into 1. -/
def addonToken (addon : LoadedOrderAddon) : String :=
  let addon_name :=
    match addon.addon with
    | some a => if a.name == "" then "Unknown Addon" else a.name
    | none => "Unknown Addon"
  let qty := if addon.qty == 0 then 1 else addon.qty
  "add " ++ addon_name ++ " x" ++ toString qty

/-- Liquid tokens, step 5 (order_service.py lines 325-338): one token per
caller-supplied liquid (`.get` defaults "liquid" and "0 ml"), or the generic
finishing token when none were supplied. -/
def liquidTokens (liquids : List Liquid) : List String :=
  match liquids with
  | [] => ["add finishing touches"]
  | _ =>
    liquids.map (fun l =>
      "add " ++ (l.qty.getD "0 ml") ++ " " ++ (l.liquid_name.getD "liquid"))

/-- `OrderService._generate_order_string` (order_service.py lines 274-351):
the deterministic dispensing instruction.  Steps: container token; dispense
tokens; add-on tokens; "move to next chamber" when any item or add-on token
was emitted (lines 321-322); liquid tokens; all joined with ", " and framed
by the short order id and the creation timestamp (lines 341-345).  The
`except` fallback of lines 349-351 is unreachable here (no step can raise). -/
def generate_order_string (order : OrderRow)
    (order_items : List LoadedOrderItem) (order_addons : List LoadedOrderAddon)
    (liquids : List Liquid) : String :=
  let process_steps :=
    [containerToken order.session_id] ++
    order_items.map itemToken ++
    order_addons.map addonToken ++
    (if order_items.isEmpty && order_addons.isEmpty then []
     else ["move to next chamber"]) ++
    liquidTokens liquids
  let order_string := String.intercalate ", " process_steps
  let order_timestamp := order.created_at.getD "Unknown time"
  "Order #" ++ strTake (toString order.id) 8 ++ " - " ++ order_string ++ " - " ++
    order_timestamp

/-- The spec-level ledger operations on one `(machine, ingredient)` stock
entry: `Deduct` is a `MachineDAO.deduct_stock` call for that single
ingredient, `Restore` is the per-line stock restoration performed by
`OrderDAO._handle_order_cancellation`. -/
inductive StockOp where
  | deduct (amount : Int) : StockOp
  | restore (amount : Int) : StockOp
deriving DecidableEq, Repr

/-- Application of one ledger operation to the database, as the source
performs it: a failing `deduct_stock` raises, which aborts its unit of work,
so the pre-state is kept; a restore is the `UPDATE ... SET qty_available_g =
qty_available_g + amount` of order_dao.py lines 456-465. -/
def applyStockOp (machine_id ingredient_id : Uid) (db : DB) : StockOp → DB
  | .deduct a =>
    match deduct_stock db machine_id
        [{ ingredient_id := ingredient_id, grams_used := a, calories := 0 }] [] with
    | .ok db2 => db2
    | .error _ => db
  | .restore a => shiftIngStock db (some machine_id) ingredient_id a

/-- The trace of database states after each operation of a sequence. -/
def runStockOps (machine_id ingredient_id : Uid) (db : DB) :
    List StockOp → List DB
  | [] => []
  | op :: rest =>
    let db2 := applyStockOp machine_id ingredient_id db op
    db2 :: runStockOps machine_id ingredient_id db2 rest

/-- Application of one ledger operation to a `(machine, addon)` stock entry,
as the source performs it: `Deduct` is a `MachineDAO.deduct_stock` call for
that single add-on (machine_dao.py lines 388-421; a failure raises and its
unit of work rolls back, keeping the pre-state), `Restore` is the per-line
add-on restoration `UPDATE ... SET qty_available = qty_available + amount`
of order_dao.py lines 467-479. -/
def applyStockOpAddon (machine_id addon_id : Uid) (db : DB) : StockOp → DB
  | .deduct a =>
    match deduct_stock db machine_id []
        [{ addon_id := addon_id, qty := a, calories := 0 }] with
    | .ok db2 => db2
    | .error _ => db
  | .restore a => shiftAddStock db (some machine_id) addon_id a

/-- The trace of database states after each operation of a sequence applied
to an add-on stock entry. -/
def runStockOpsAddon (machine_id addon_id : Uid) (db : DB) :
    List StockOp → List DB
  | [] => []
  | op :: rest =>
    let db2 := applyStockOpAddon machine_id addon_id db op
    db2 :: runStockOpsAddon machine_id addon_id db2 rest

/-- Restore amounts in the source always come from `order_items.grams_used` /
`order_addons.qty` columns, which carry CHECK constraints `grams_used >= 0`
and `qty > 0` (app/models/order.py lines 43-47 and 64-67); this predicate
captures that side condition on a spec-level operation sequence. -/
def StockOp.restoreNonneg : StockOp → Prop
  | .deduct _ => True
  | .restore a => 0 ≤ a

/-- Total grams that a `deduct_stock` ingredient-request list takes from one
`machine_ingredients` row (matching on the row's keys). -/
def ingReqAmount (machine_id : Option Uid) (r : IngStockRow) :
    List IngredientReq → Int
  | [] => 0
  | req :: rest =>
    (if some r.machine_id == machine_id && r.ingredient_id == req.ingredient_id
      then req.grams_used else 0) + ingReqAmount machine_id r rest

/-- Total quantity that a `deduct_stock` add-on-request list takes from one
`machine_addons` row. -/
def addReqAmount (machine_id : Option Uid) (r : AddStockRow) :
    List AddonReq → Int
  | [] => 0
  | req :: rest =>
    (if some r.machine_id == machine_id && r.addon_id == req.addon_id
      then req.qty else 0) + addReqAmount machine_id r rest

/-- Total grams that the cancellation compensation adds back to one
`machine_ingredients` row: order items with a NULL `ingredient_id` are
skipped (order_dao.py line 455) and contribute nothing. -/
def ingRestoreAmount (machine_id : Option Uid) (r : IngStockRow) :
    List OrderItemRow → Int
  | [] => 0
  | it :: rest =>
    (match it.ingredient_id with
     | none => 0
     | some iid =>
       if some r.machine_id == machine_id && r.ingredient_id == iid
        then it.grams_used else 0) + ingRestoreAmount machine_id r rest

/-- Total quantity that the cancellation compensation adds back to one
`machine_addons` row: order addons with a NULL `addon_id` are skipped
(order_dao.py line 469). -/
def addRestoreAmount (machine_id : Option Uid) (r : AddStockRow) :
    List OrderAddonRow → Int
  | [] => 0
  | a :: rest =>
    (match a.addon_id with
     | none => 0
     | some aid =>
       if some r.machine_id == machine_id && r.addon_id == aid
        then a.qty else 0) + addRestoreAmount machine_id r rest

/-- Catalog ingredient used by the concrete scenarios (Scenario A/B: `I1`,
Scenario C: `Banana`). -/
def bananaIng : Ingredient :=
  { id := 1, name := "Banana", min_qty_g := 10, max_percent_limit := 100 }

/-- Catalog add-on used by the concrete scenarios (`ProteinPowder`). -/
def proteinAddon : Addon := { id := 2, name := "ProteinPowder" }

/-- Concrete database of the scenarios: machine 1 active, ingredient 1 in
stock with `qty_available_g = 500` and threshold 100 (Scenario A), add-on 2
in stock with quantity 5, no orders. -/
def dbA : DB :=
  { machines := [{ id := 1, status := "active" }],
    ingredients := [bananaIng],
    addons := [proteinAddon],
    machine_ingredients :=
      [{ machine_id := 1, ingredient_id := 1, qty_available_g := 500,
         low_stock_threshold_g := 100 }],
    machine_addons :=
      [{ machine_id := 1, addon_id := 2, qty_available := 5,
         low_stock_threshold := 1 }],
    orders := [], order_items := [], order_addons := [], next_id := 10 }

/-- A fully valid concrete order request against `dbA`: every referenced item
exists, the recipe constraints hold, and the stock suffices. -/
def reqA : OrderCreateRequest :=
  { machine_id := 1, total_price := 10, total_calories := 100,
    status := "processing", session_id := some "smoothie-abc",
    ingredients := [{ ingredient_id := 1, grams_used := 100, calories := 80 }],
    addons := [{ addon_id := 2, qty := 1, calories := 20 }], liquids := [] }

/-- `dbA` with an order currently in status `processing` on machine 1 (the
admission-control scenario of the spec). -/
def dbBusy : DB :=
  { dbA with orders :=
      [{ id := 5, machine_id := some 1, user_id := none, session_id := none,
         status := "processing", total_price := 5, total_calories := 50,
         created_at := none }]
  }

/-- `dbA` with an order in the terminal status `completed` (for the illegal
status-transition scenario). -/
def dbDone : DB :=
  { dbA with orders :=
      [{ id := 7, machine_id := some 1, user_id := none, session_id := none,
         status := "completed", total_price := 5, total_calories := 50,
         created_at := none }]
  }

/-- A request referencing a catalog ingredient id (99) that does not exist. -/
def reqBadIng : OrderCreateRequest :=
  { reqA with ingredients := [{ ingredient_id := 99, grams_used := 100, calories := 80 }] }

/-- The concrete order of rendering Scenario C (`sessionId = "smoothie-abc"`,
one ingredient line Banana 150ml, one add-on ProteinPowder x1). -/
def c9order : OrderRow :=
  { id := 12345678, machine_id := some 1, user_id := none,
    session_id := some "smoothie-abc", status := "processing",
    total_price := 10, total_calories := 100,
    created_at := some "2025-01-01 12:00:00" }

/-- Stock state after a successful deduction of `reqA`'s lines from `dbA`:
ingredient 1 down to 400g, add-on 2 down to 4. -/
def dbC4mid : DB :=
  { dbA with
    machine_ingredients :=
      [{ machine_id := 1, ingredient_id := 1, qty_available_g := 400,
         low_stock_threshold_g := 100 }],
    machine_addons :=
      [{ machine_id := 1, addon_id := 2, qty_available := 4,
         low_stock_threshold := 1 }] }

/-- `dbC4mid` together with the persisted order 20 (status `processing`) and
its line items, as the state would stand after a successful creation of
`reqA`'s order. -/
def dbC4pre : DB :=
  { dbC4mid with
    orders :=
      [{ id := 20, machine_id := some 1, user_id := none, session_id := none,
         status := "processing", total_price := 10, total_calories := 100,
         created_at := none }],
    order_items :=
      [{ order_id := 20, ingredient_id := some 1, qty_ml := 0,
         grams_used := 100, calories := 80 }],
    order_addons :=
      [{ order_id := 20, addon_id := some 2, qty := 1, calories := 20 }] }

/-- Database for the dangling-line compensation scenario: order 8 has one
ingredient line whose catalog reference was nulled (70g, skipped), one
ordinary line (30g on ingredient 1), and one add-on line whose reference was
nulled (skipped). -/
def dbC10 : DB :=
  { dbA with
    orders :=
      [{ id := 8, machine_id := some 1, user_id := none, session_id := none,
         status := "processing", total_price := 10, total_calories := 100,
         created_at := none }],
    order_items :=
      [{ order_id := 8, ingredient_id := none, qty_ml := 0, grams_used := 70,
         calories := 0 },
       { order_id := 8, ingredient_id := some 1, qty_ml := 0, grams_used := 30,
         calories := 0 }],
    order_addons :=
      [{ order_id := 8, addon_id := none, qty := 2, calories := 0 }] }

deriving instance DecidableEq for Except

lemma find?_map_same_key {α : Type} (f : α → α) (p : α → Bool)
    (hp : ∀ a, p (f a) = p a) :
    ∀ (l : List α), (l.map f).find? p = (l.find? p).map f := by
  intro l
  induction l with
  | nil => rfl
  | cons a l ih =>
    simp only [List.map_cons, List.find?_cons, hp a]
    cases h : p a <;> simp [h, ih]

lemma ingStockQty_shift_same (db : DB) (m i : Uid) (d : Int) :
    ingStockQty (shiftIngStock db (some m) i d) m i =
      (ingStockQty db m i).map (fun q => q + d) := by
  unfold ingStockQty shiftIngStock
  simp only
  rw [find?_map_same_key]
  · cases h : db.machine_ingredients.find?
        (fun r => r.machine_id == m && r.ingredient_id == i) with
    | none => rfl
    | some r =>
      have hr := List.find?_some h
      simp only [Bool.and_eq_true, beq_iff_eq] at hr
      simp [hr.1, hr.2]
  · intro r
    by_cases h1 : r.machine_id = m <;> by_cases h2 : r.ingredient_id = i <;>
      simp [h1, h2]

lemma addStockQty_shift_same (db : DB) (m a : Uid) (d : Int) :
    addStockQty (shiftAddStock db (some m) a d) m a =
      (addStockQty db m a).map (fun q => q + d) := by
  unfold addStockQty shiftAddStock
  simp only
  rw [find?_map_same_key]
  · cases h : db.machine_addons.find?
        (fun r => r.machine_id == m && r.addon_id == a) with
    | none => rfl
    | some r =>
      have hr := List.find?_some h
      simp only [Bool.and_eq_true, beq_iff_eq] at hr
      simp [hr.1, hr.2]
  · intro r
    by_cases h1 : r.machine_id = m <;> by_cases h2 : r.addon_id = a <;>
      simp [h1, h2]

lemma deduct_stock_single (db : DB) (m i : Uid) (a c : Int) :
    deduct_stock db m [{ ingredient_id := i, grams_used := a, calories := c }] [] =
      match ingStockQty db m i with
      | none =>
        .error (.businessRule "Insufficient ingredient stock"
          (.ingredientStock i a none))
      | some q =>
        if q < a then
          .error (.businessRule "Insufficient ingredient stock"
            (.ingredientStock i a (some q)))
        else .ok (shiftIngStock db (some m) i (-a)) := by
  cases h : ingStockQty db m i with
  | none => simp [deduct_stock, deductIngredientsLoop, h]
  | some q =>
    by_cases hq : q < a <;>
      simp [deduct_stock, deductIngredientsLoop, deductAddonsLoop, h, hq]

lemma deduct_stock_single_addon (db : DB) (m i : Uid) (a c : Int) :
    deduct_stock db m [] [{ addon_id := i, qty := a, calories := c }] =
      match addStockQty db m i with
      | none =>
        .error (.businessRule "Insufficient addon stock"
          (.addonStock i a none))
      | some q =>
        if q < a then
          .error (.businessRule "Insufficient addon stock"
            (.addonStock i a (some q)))
        else .ok (shiftAddStock db (some m) i (-a)) := by
  cases h : addStockQty db m i with
  | none => simp [deduct_stock, deductIngredientsLoop, deductAddonsLoop, h]
  | some q =>
    by_cases hq : q < a <;>
      simp [deduct_stock, deductIngredientsLoop, deductAddonsLoop, h, hq]

lemma create_order_with_items_body_isError (db : DB) (machine_id : Uid)
    (user_id : Option Uid) (session_id : Option String)
    (total_price total_calories : Int) (status : String)
    (ingredients : List IngredientReq) (addons : List AddonReq) :
    ∃ e, create_order_with_items_body db machine_id user_id session_id
      total_price total_calories status ingredients addons = .error e := by
  unfold create_order_with_items_body
  repeat' split
  all_goals exact ⟨_, rfl⟩

lemma create_order_with_items_isError (db : DB) (machine_id : Uid)
    (user_id : Option Uid) (session_id : Option String)
    (total_price total_calories : Int) (status : String)
    (ingredients : List IngredientReq) (addons : List AddonReq) :
    ∃ m, create_order_with_items db machine_id user_id session_id
      total_price total_calories status ingredients addons =
        .error (.orderProcessing m) := by
  obtain ⟨e, he⟩ := create_order_with_items_body_isError db machine_id user_id
    session_id total_price total_calories status ingredients addons
  exact ⟨"Failed to create order: " ++ e.message,
    by simp [create_order_with_items, he]⟩

lemma create_order_txn_isError (pe : Option PyError) (db : DB)
    (req : OrderCreateRequest) (sid : Option String) (uid : Option Uid) :
    ∃ e, create_order_txn pe db req sid uid = .error e := by
  unfold create_order_txn
  rcases hv : svc_validate_order_request db req with e | u
  · exact ⟨e, rfl⟩
  · obtain ⟨m, hm⟩ := create_order_with_items_isError db req.machine_id uid sid
      req.total_price req.total_calories req.status req.ingredients req.addons
    exact ⟨.orderProcessing m, by simp [hm]⟩

lemma create_order_snd (pe : Option PyError) (db : DB)
    (req : OrderCreateRequest) (sid : Option String) (uid : Option Uid) :
    (create_order pe db req sid uid).2 = db := by
  obtain ⟨e, he⟩ := create_order_txn_isError pe db req sid uid
  simp [create_order, he]

lemma reqA_constraints :
    constraintsLoop dbA 100
      [{ ingredient_id := 1, grams_used := 100, calories := 80 }] = .ok () := by
  have hg : getIngredient dbA 1 = some bananaIng := by decide
  simp only [constraintsLoop, hg, bananaIng]
  rw [if_neg (by norm_num), if_neg (by norm_num)]

lemma svcA_ok : svc_validate_order_request dbA reqA = .ok () := by
  unfold svc_validate_order_request validate_ingredient_constraints
  have h1 : validate_machine_for_order dbA reqA.machine_id = .ok () := by decide
  have h2 : svc_validate_ingredients_exist dbA reqA.ingredients = .ok () := by decide
  have h3 : svc_validate_addons_exist dbA reqA.addons = .ok () := by decide
  rw [h1, h2, h3]
  show constraintsLoop dbA (totalGrams reqA.ingredients) reqA.ingredients = .ok ()
  have ht : totalGrams reqA.ingredients = 100 := by decide
  rw [ht]
  exact reqA_constraints

lemma create_order_txn_dbA (pe : Option PyError) :
    create_order_txn pe dbA reqA none none =
      .error (.orderProcessing ("Failed to create order: " ++
        deductStockArityError.message)) := by
  unfold create_order_txn
  rw [svcA_ok]
  show (match create_order_with_items dbA reqA.machine_id none none
      reqA.total_price reqA.total_calories reqA.status reqA.ingredients
      reqA.addons with
    | .error e => Except.error e
    | .ok (db2, order) =>
      match pe with
      | some e => Except.error e
      | none => Except.ok (db2, order)) = _
  have hd : create_order_with_items dbA reqA.machine_id none none
      reqA.total_price reqA.total_calories reqA.status reqA.ingredients
      reqA.addons =
        .error (.orderProcessing ("Failed to create order: " ++
          deductStockArityError.message)) := by decide
  rw [hd]

lemma create_order_dbA (pe : Option PyError) :
    create_order pe dbA reqA none none =
      (.error (.orderProcessing ("Failed to create order: Failed to create order: " ++
        deductStockArityError.message)), dbA) := by
  unfold create_order
  rw [create_order_txn_dbA]
  rfl

/-- Claim C1: every order-creation attempt that fails - at machine
validation, item existence, recipe constraints, stock deduction, or
persistence - leaves every stock entry of the target machine (indeed, of
every machine) with the value it had before the attempt: the transaction of
`get_async_transaction` rolls back, so no partial deduction is visible. -/
theorem C1_create_order_atomic (pe : Option PyError) (db : DB)
    (req : OrderCreateRequest) (sid : Option String) (uid : Option Uid)
    (e : PyError) (hfail : (create_order pe db req sid uid).1 = .error e) :
    (create_order pe db req sid uid).2.machine_ingredients =
      db.machine_ingredients ∧
    (create_order pe db req sid uid).2.machine_addons = db.machine_addons := by
  rw [create_order_snd]
  exact ⟨rfl, rfl⟩

/-- Witness for C1: a concrete failing attempt (the valid request `reqA` on
`dbA`; it fails at the deduction call) leaves the stock tables of `dbA`
unchanged. -/
theorem C1_witness :
    (create_order none dbA reqA none none).1 =
      .error (.orderProcessing ("Failed to create order: Failed to create order: " ++
        "MachineDAO.deduct_stock() takes 5 positional arguments but 6 were given")) ∧
    (create_order none dbA reqA none none).2.machine_ingredients =
      dbA.machine_ingredients ∧
    (create_order none dbA reqA none none).2.machine_addons =
      dbA.machine_addons := by
  have h := create_order_dbA none
  refine ⟨by rw [h]; decide, ?_⟩
  exact C1_create_order_atomic none dbA reqA none none
    (.orderProcessing ("Failed to create order: Failed to create order: " ++
      deductStockArityError.message)) (by rw [h])

/-- Claim C2 (amended): `deduct_stock` on a single stock entry - an
ingredient entry as well as an add-on entry - fails exactly when the stock
row is missing or holds less than the requested amount; the error is a
plain `BusinessRuleError` (not the dedicated `InsufficientStockError`
class) whose details carry required and available; on success the entry
becomes `qty_available - amount`, which is never negative. -/
theorem C2_deduct_contract (db : DB) (m i : Uid) (a c : Int) :
    (ingStockQty db m i = none →
      deduct_stock db m [{ ingredient_id := i, grams_used := a, calories := c }] [] =
        .error (.businessRule "Insufficient ingredient stock"
          (.ingredientStock i a none))) ∧
    (∀ q, ingStockQty db m i = some q → q < a →
      deduct_stock db m [{ ingredient_id := i, grams_used := a, calories := c }] [] =
        .error (.businessRule "Insufficient ingredient stock"
          (.ingredientStock i a (some q)))) ∧
    (∀ q, ingStockQty db m i = some q → ¬q < a →
      ∃ db2,
        deduct_stock db m [{ ingredient_id := i, grams_used := a, calories := c }] [] =
          .ok db2 ∧
        ingStockQty db2 m i = some (q - a) ∧ 0 ≤ q - a) ∧
    (addStockQty db m i = none →
      deduct_stock db m [] [{ addon_id := i, qty := a, calories := c }] =
        .error (.businessRule "Insufficient addon stock"
          (.addonStock i a none))) ∧
    (∀ q, addStockQty db m i = some q → q < a →
      deduct_stock db m [] [{ addon_id := i, qty := a, calories := c }] =
        .error (.businessRule "Insufficient addon stock"
          (.addonStock i a (some q)))) ∧
    (∀ q, addStockQty db m i = some q → ¬q < a →
      ∃ db2,
        deduct_stock db m [] [{ addon_id := i, qty := a, calories := c }] =
          .ok db2 ∧
        addStockQty db2 m i = some (q - a) ∧ 0 ≤ q - a) := by
  refine ⟨?_, ?_, ?_, ?_, ?_, ?_⟩
  · intro h
    rw [deduct_stock_single, h]
  · intro q hq hlt
    rw [deduct_stock_single, hq]
    simp [hlt]
  · intro q hq hge
    refine ⟨shiftIngStock db (some m) i (-a), ?_, ?_, by omega⟩
    · rw [deduct_stock_single, hq]
      simp [hge]
    · rw [ingStockQty_shift_same, hq]
      simp [Int.sub_eq_add_neg]
  · intro h
    rw [deduct_stock_single_addon, h]
  · intro q hq hlt
    rw [deduct_stock_single_addon, hq]
    simp [hlt]
  · intro q hq hge
    refine ⟨shiftAddStock db (some m) i (-a), ?_, ?_, by omega⟩
    · rw [deduct_stock_single_addon, hq]
      simp [hge]
    · rw [addStockQty_shift_same, hq]
      simp [Int.sub_eq_add_neg]

/-- Witness for C2: on the concrete stock of Scenario B, deducting 100g of
ingredient 1 (500g available) succeeds and leaves 400g, and deducting 2
units of add-on 2 (5 available) succeeds and leaves 3. -/
theorem C2_witness :
    (∃ db2,
      deduct_stock dbA 1 [{ ingredient_id := 1, grams_used := 100, calories := 0 }] [] =
        .ok db2 ∧
      ingStockQty db2 1 1 = some (500 - 100) ∧ (0:Int) ≤ 500 - 100) ∧
    (∃ db2,
      deduct_stock dbA 1 [] [{ addon_id := 2, qty := 2, calories := 0 }] =
        .ok db2 ∧
      addStockQty db2 1 2 = some (5 - 2) ∧ (0:Int) ≤ 5 - 2) :=
  ⟨(C2_deduct_contract dbA 1 1 100 0).2.2.1 500 (by decide) (by decide),
   (C2_deduct_contract dbA 1 2 2 0).2.2.2.2.2 5 (by decide) (by decide)⟩

/-- Counterexample for C2 as stated: with `qty_available = 500` a request
for 600g of ingredient 1 raises `BusinessRuleError` with required=600 and
available=500, and a request for 6 units of add-on 2 (5 available) raises
`BusinessRuleError` with required=6 and available=5 - in both ledgers the
raised class is not `InsufficientStockError`, contrary to the claim's error
type. -/
theorem C2_counterexample :
    deduct_stock dbA 1 [{ ingredient_id := 1, grams_used := 600, calories := 0 }] [] =
      .error (.businessRule "Insufficient ingredient stock"
        (.ingredientStock 1 600 (some 500))) ∧
    PyError.isInsufficientStock
      (.businessRule "Insufficient ingredient stock"
        (.ingredientStock 1 600 (some 500))) = false ∧
    deduct_stock dbA 1 [] [{ addon_id := 2, qty := 6, calories := 0 }] =
      .error (.businessRule "Insufficient addon stock"
        (.addonStock 2 6 (some 5))) ∧
    PyError.isInsufficientStock
      (.businessRule "Insufficient addon stock"
        (.addonStock 2 6 (some 5))) = false := by
  exact ⟨by decide, rfl, by decide, rfl⟩

lemma applyStockOp_deduct (m i : Uid) (db : DB) (q a : Int)
    (hq : ingStockQty db m i = some q) :
    ingStockQty (applyStockOp m i db (.deduct a)) m i =
      some (if q < a then q else q - a) := by
  simp only [applyStockOp]
  rw [deduct_stock_single, hq]
  by_cases h : q < a
  · simp [h, hq]
  · simp [h, ingStockQty_shift_same, hq, Int.sub_eq_add_neg]

lemma applyStockOp_restore (m i : Uid) (db : DB) (q a : Int)
    (hq : ingStockQty db m i = some q) :
    ingStockQty (applyStockOp m i db (.restore a)) m i = some (q + a) := by
  simp only [applyStockOp]
  rw [ingStockQty_shift_same, hq]
  rfl

lemma ingLedgerNoNeg (m i : Uid) (ops : List StockOp) :
    ∀ (db : DB) (q : Int), ingStockQty db m i = some q → 0 ≤ q →
      (∀ op ∈ ops, op.restoreNonneg) →
      ∀ db2 ∈ runStockOps m i db ops, ∀ q2, ingStockQty db2 m i = some q2 →
        0 ≤ q2 := by
  induction ops with
  | nil =>
    intro db q _ _ _ db2 hdb2
    simp [runStockOps] at hdb2
  | cons op rest ih =>
    intro db q hq h0 hops db2 hdb2 q2 hq2
    obtain ⟨q1, hq1, hge⟩ :
        ∃ q1, ingStockQty (applyStockOp m i db op) m i = some q1 ∧ 0 ≤ q1 := by
      cases op with
      | deduct a =>
        refine ⟨_, applyStockOp_deduct m i db q a hq, ?_⟩
        by_cases h : q < a <;> simp [h] <;> omega
      | restore a =>
        have hop : (0:Int) ≤ a := hops (.restore a) (List.mem_cons_self _ _)
        exact ⟨q + a, applyStockOp_restore m i db q a hq, by omega⟩
    simp only [runStockOps, List.mem_cons] at hdb2
    rcases hdb2 with h | h
    · subst h
      rw [hq1] at hq2
      injection hq2 with h2
      omega
    · exact ih (applyStockOp m i db op) q1 hq1 hge
        (fun o ho => hops o (List.mem_cons_of_mem _ ho)) db2 h q2 hq2

lemma applyStockOpAddon_deduct (m i : Uid) (db : DB) (q a : Int)
    (hq : addStockQty db m i = some q) :
    addStockQty (applyStockOpAddon m i db (.deduct a)) m i =
      some (if q < a then q else q - a) := by
  simp only [applyStockOpAddon]
  rw [deduct_stock_single_addon, hq]
  by_cases h : q < a
  · simp [h, hq]
  · simp [h, addStockQty_shift_same, hq, Int.sub_eq_add_neg]

lemma applyStockOpAddon_restore (m i : Uid) (db : DB) (q a : Int)
    (hq : addStockQty db m i = some q) :
    addStockQty (applyStockOpAddon m i db (.restore a)) m i = some (q + a) := by
  simp only [applyStockOpAddon]
  rw [addStockQty_shift_same, hq]
  rfl

lemma addLedgerNoNeg (m i : Uid) (ops : List StockOp) :
    ∀ (db : DB) (q : Int), addStockQty db m i = some q → 0 ≤ q →
      (∀ op ∈ ops, op.restoreNonneg) →
      ∀ db2 ∈ runStockOpsAddon m i db ops, ∀ q2, addStockQty db2 m i = some q2 →
        0 ≤ q2 := by
  induction ops with
  | nil =>
    intro db q _ _ _ db2 hdb2
    simp [runStockOpsAddon] at hdb2
  | cons op rest ih =>
    intro db q hq h0 hops db2 hdb2 q2 hq2
    obtain ⟨q1, hq1, hge⟩ :
        ∃ q1, addStockQty (applyStockOpAddon m i db op) m i = some q1 ∧ 0 ≤ q1 := by
      cases op with
      | deduct a =>
        refine ⟨_, applyStockOpAddon_deduct m i db q a hq, ?_⟩
        by_cases h : q < a <;> simp [h] <;> omega
      | restore a =>
        have hop : (0:Int) ≤ a := hops (.restore a) (List.mem_cons_self _ _)
        exact ⟨q + a, applyStockOpAddon_restore m i db q a hq, by omega⟩
    simp only [runStockOpsAddon, List.mem_cons] at hdb2
    rcases hdb2 with h | h
    · subst h
      rw [hq1] at hq2
      injection hq2 with h2
      omega
    · exact ih (applyStockOpAddon m i db op) q1 hq1 hge
        (fun o ho => hops o (List.mem_cons_of_mem _ ho)) db2 h q2 hq2

/-- Claim C3: for every sequence of Deduct and Restore operations on a stock
entry - a `machine_ingredients` entry as well as a `machine_addons` entry -
whose initial quantity is non-negative, the quantity stays non-negative
after every operation.  A failing Deduct raises and its unit of work rolls
back, leaving the entry unchanged; Restore amounts carry the side condition
of the order-line CHECK constraints (`grams_used >= 0`, `qty > 0`),
captured by `StockOp.restoreNonneg`. -/
theorem C3_no_negative_stock (m i : Uid) (ops : List StockOp) :
    (∀ (db : DB) (q : Int), ingStockQty db m i = some q → 0 ≤ q →
      (∀ op ∈ ops, op.restoreNonneg) →
      ∀ db2 ∈ runStockOps m i db ops, ∀ q2, ingStockQty db2 m i = some q2 →
        0 ≤ q2) ∧
    (∀ (db : DB) (q : Int), addStockQty db m i = some q → 0 ≤ q →
      (∀ op ∈ ops, op.restoreNonneg) →
      ∀ db2 ∈ runStockOpsAddon m i db ops, ∀ q2, addStockQty db2 m i = some q2 →
        0 ≤ q2) :=
  ⟨ingLedgerNoNeg m i ops, addLedgerNoNeg m i ops⟩

/-- Witness for C3: on the concrete ingredient stock of 500g, the sequence
deduct 100, restore 100, deduct 600 (the last fails and changes nothing)
ends at 500; on the concrete add-on stock of 5 units, the sequence
deduct 2, restore 2, deduct 9 (the last fails) ends at 5; the theorem
instantiates at both final states. -/
theorem C3_witness :
    (ingStockQty
      (applyStockOp 1 1 (applyStockOp 1 1 (applyStockOp 1 1 dbA (.deduct 100))
        (.restore 100)) (.deduct 600)) 1 1 = some 500 ∧
     (0:Int) ≤ 500) ∧
    (addStockQty
      (applyStockOpAddon 1 2 (applyStockOpAddon 1 2 (applyStockOpAddon 1 2 dbA
        (.deduct 2)) (.restore 2)) (.deduct 9)) 1 2 = some 5 ∧
     (0:Int) ≤ 5) := by
  refine ⟨⟨by decide, ?_⟩, ⟨by decide, ?_⟩⟩
  · refine (C3_no_negative_stock 1 1 [.deduct 100, .restore 100, .deduct 600]).1
      dbA 500 (by decide) (by decide) ?_
      (applyStockOp 1 1 (applyStockOp 1 1 (applyStockOp 1 1 dbA (.deduct 100))
        (.restore 100)) (.deduct 600)) ?_ 500 (by decide)
    · intro op hop
      simp only [List.mem_cons, List.not_mem_nil, or_false] at hop
      rcases hop with h | h | h <;> subst h <;> simp [StockOp.restoreNonneg]
    · simp [runStockOps]
  · refine (C3_no_negative_stock 1 2 [.deduct 2, .restore 2, .deduct 9]).2
      dbA 5 (by decide) (by decide) ?_
      (applyStockOpAddon 1 2 (applyStockOpAddon 1 2 (applyStockOpAddon 1 2 dbA
        (.deduct 2)) (.restore 2)) (.deduct 9)) ?_ 5 (by decide)
    · intro op hop
      simp only [List.mem_cons, List.not_mem_nil, or_false] at hop
      rcases hop with h | h | h <;> subst h <;> simp [StockOp.restoreNonneg]
    · simp [runStockOpsAddon]

lemma getOrder_setOrderStatus (db : DB) (oid : Uid) (st : String) :
    getOrder (setOrderStatus db oid st) oid =
      (getOrder db oid).map (fun o => { o with status := st }) := by
  unfold getOrder setOrderStatus
  simp only
  rw [find?_map_same_key]
  · cases h : db.orders.find? (fun o => o.id == oid) with
    | none => rfl
    | some o =>
      have hr := List.find?_some h
      simp only [beq_iff_eq] at hr
      simp [hr]
  · intro o
    by_cases h1 : o.id = oid <;> simp [h1]

lemma restoreItemsLoop_orders (mid : Option Uid) :
    ∀ (items : List OrderItemRow) (db : DB),
      (restoreItemsLoop mid db items).orders = db.orders := by
  intro items
  induction items with
  | nil => intro db; rfl
  | cons it rest ih =>
    intro db
    cases h : it.ingredient_id <;> simp [restoreItemsLoop, h, ih, shiftIngStock]

lemma restoreAddonsLoop_orders (mid : Option Uid) :
    ∀ (addons : List OrderAddonRow) (db : DB),
      (restoreAddonsLoop mid db addons).orders = db.orders := by
  intro addons
  induction addons with
  | nil => intro db; rfl
  | cons a rest ih =>
    intro db
    cases h : a.addon_id <;> simp [restoreAddonsLoop, h, ih, shiftAddStock]

lemma handle_order_cancellation_orders (db : DB) (oid : Uid) :
    (handle_order_cancellation db oid).orders = db.orders := by
  unfold handle_order_cancellation
  cases h : getOrder db oid with
  | none => rfl
  | some o => rw [restoreAddonsLoop_orders, restoreItemsLoop_orders]

lemma getOrder_congr {db1 db2 : DB} (h : db1.orders = db2.orders) (oid : Uid) :
    getOrder db1 oid = getOrder db2 oid := by
  unfold getOrder
  rw [h]

/-- Claim C5 (amended): for every `(current, new)` pair outside the
transition table, `_validate_status_transition` raises `BusinessRuleError`
and `update_order_status` fails - surfacing the error wrapped in
`OrderProcessingError` - and returns the database unchanged (in particular
the order's status is unchanged); for every pair in the table it succeeds
and the order's status field becomes the new status. -/
theorem C5_transition_table (db : DB) (oid : Uid) (o : OrderRow) (st : String)
    (hord : getOrder db oid = some o) :
    (st ∉ allowedTargets o.status →
      validate_status_transition o.status st =
        .error (.businessRule
          ("Invalid status transition from " ++ o.status ++ " to " ++ st)
          (.statusTransition o.status st)) ∧
      update_order_status db oid st =
        (.error (.orderProcessing ("Failed to update order status: " ++
          ("Invalid status transition from " ++ o.status ++ " to " ++ st))), db)) ∧
    (st ∈ allowedTargets o.status →
      ∃ db2 o2, update_order_status db oid st = (.ok o2, db2) ∧
        o2.status = st ∧
        (getOrder db2 oid).map OrderRow.status = some st) := by
  constructor
  · intro hnot
    have hv : validate_status_transition o.status st =
        .error (.businessRule
          ("Invalid status transition from " ++ o.status ++ " to " ++ st)
          (.statusTransition o.status st)) := by
      unfold validate_status_transition
      rw [if_neg hnot]
    refine ⟨hv, ?_⟩
    simp only [update_order_status, update_order_status_body, hord, hv,
      PyError.message]
  · intro hyes
    have hv : validate_status_transition o.status st = .ok () := by
      unfold validate_status_transition
      rw [if_pos hyes]
    simp only [update_order_status, update_order_status_body, hord, hv]
    have horders :
        (if st == "cancelled" then
            handle_order_cancellation (setOrderStatus db oid st) oid
          else if st == "failed" then
            handle_order_cancellation (setOrderStatus db oid st) oid
          else setOrderStatus db oid st).orders =
          (setOrderStatus db oid st).orders := by
      split
      · exact handle_order_cancellation_orders _ _
      split
      · exact handle_order_cancellation_orders _ _
      · rfl
    have hget :
        getOrder (if st == "cancelled" then
            handle_order_cancellation (setOrderStatus db oid st) oid
          else if st == "failed" then
            handle_order_cancellation (setOrderStatus db oid st) oid
          else setOrderStatus db oid st) oid = some { o with status := st } := by
      rw [getOrder_congr horders, getOrder_setOrderStatus, hord]
      rfl
    refine ⟨_, _, rfl, ?_, ?_⟩
    · rw [hget]
      rfl
    · rw [hget]
      rfl

/-- Witness for C5: on the concrete database with order 5 in status
`processing`, the legal transition to `completed` succeeds and sets the
status field. -/
theorem C5_witness :
    ∃ db2 o2, update_order_status dbBusy 5 "completed" = (.ok o2, db2) ∧
      o2.status = "completed" ∧
      (getOrder db2 5).map OrderRow.status = some "completed" :=
  (C5_transition_table dbBusy 5
    { id := 5, machine_id := some 1, user_id := none, session_id := none,
      status := "processing", total_price := 5, total_calories := 50,
      created_at := none } "completed" (by decide)).2 (by decide)

/-- Counterexample for C5 as stated: the illegal transition
completed → processing on concrete order 7 fails, but the surfaced error is
an `OrderProcessingError` wrapping the message - not the `BusinessRuleError`
the claim names (that error is raised internally and re-wrapped by
`update_order_status`). -/
theorem C5_counterexample :
    update_order_status dbDone 7 "processing" =
      (.error (.orderProcessing
        "Failed to update order status: Invalid status transition from completed to processing"),
        dbDone) ∧
    PyError.isBusinessRule (.orderProcessing
      "Failed to update order status: Invalid status transition from completed to processing") =
      false := by
  exact ⟨by decide, rfl⟩

lemma svc_validate_machine_error (db : DB) (req : OrderCreateRequest)
    (e : PyError) (h : validate_machine_for_order db req.machine_id = .error e) :
    svc_validate_order_request db req = .error e := by
  simp only [svc_validate_order_request, h]

lemma create_order_wrap_of_svc_error (pe : Option PyError) (db : DB)
    (req : OrderCreateRequest) (sid : Option String) (uid : Option Uid)
    (e : PyError) (he : svc_validate_order_request db req = .error e) :
    create_order pe db req sid uid =
      (.error (.orderProcessing ("Failed to create order: " ++ e.message)), db) := by
  simp only [create_order, create_order_txn, he]

/-- Claim C6 (amended): admission control makes `CreateOrder` fail with no
state change whenever the machine is missing, inactive, or has an order in
status pending or processing - but the raised errors are `NotFoundError`
(missing machine) and `BusinessRuleError` (inactive / busy), surfaced to the
caller wrapped in `OrderProcessingError`; the dedicated
`MachineUnavailableError` class is never raised. -/
theorem C6_admission_control (pe : Option PyError) (db : DB)
    (req : OrderCreateRequest) (sid : Option String) (uid : Option Uid) :
    (getMachine db req.machine_id = none →
      validate_machine_for_order db req.machine_id =
        .error (.notFound ("Machine " ++ toString req.machine_id ++ " not found"))) ∧
    (∀ mach, getMachine db req.machine_id = some mach → mach.status ≠ "active" →
      validate_machine_for_order db req.machine_id =
        .error (.businessRule
          ("Machine is not active (status: " ++ mach.status ++ ")")
          (.machineStatus mach.status))) ∧
    (∀ mach, getMachine db req.machine_id = some mach → mach.status = "active" →
      (check_machine_availability db req.machine_id = false ↔
        (db.orders.filter (fun o => o.machine_id == some req.machine_id &&
          (o.status == "pending" || o.status == "processing"))).length ≠ 0)) ∧
    (∀ mach, getMachine db req.machine_id = some mach → mach.status = "active" →
      check_machine_availability db req.machine_id = false →
      validate_machine_for_order db req.machine_id =
        .error (.businessRule "Machine is currently processing another order"
          (.machineBusy req.machine_id))) ∧
    (∀ e, validate_machine_for_order db req.machine_id = .error e →
      create_order pe db req sid uid =
        (.error (.orderProcessing ("Failed to create order: " ++ e.message)), db)) := by
  refine ⟨?_, ?_, ?_, ?_, ?_⟩
  · intro h
    simp only [validate_machine_for_order, h]
  · intro mach h hne
    simp only [validate_machine_for_order, h]
    rw [if_pos (by simp [hne])]
  · intro mach h hactive
    simp only [check_machine_availability, h, hactive]
    simp
  · intro mach h hactive hbusy
    simp only [validate_machine_for_order, h]
    rw [if_neg (by simp [hactive]), if_pos (by simp [hbusy])]
  · intro e he
    exact create_order_wrap_of_svc_error pe db req sid uid e
      (svc_validate_machine_error db req e he)

/-- Witness for C6: on the concrete database with an order in `processing`
on machine 1, a second `CreateOrder` for machine 1 fails with the wrapped
busy error and leaves the state unchanged. -/
theorem C6_witness :
    create_order none dbBusy reqA none none =
      (.error (.orderProcessing ("Failed to create order: " ++
        PyError.message (.businessRule
          "Machine is currently processing another order" (.machineBusy 1)))),
        dbBusy) :=
  (C6_admission_control none dbBusy reqA none none).2.2.2.2
    (.businessRule "Machine is currently processing another order"
      (.machineBusy 1)) (by decide)

/-- Counterexample for C6 as stated: the second `CreateOrder` on the busy
machine fails, but the surfaced error is an `OrderProcessingError` wrapping
a `BusinessRuleError` message - the `MachineUnavailableError` class the
claim names is never raised. -/
theorem C6_counterexample :
    create_order none dbBusy reqA none none =
      (.error (.orderProcessing
        "Failed to create order: Machine is currently processing another order"),
        dbBusy) ∧
    PyError.isMachineUnavailable (.orderProcessing
      "Failed to create order: Machine is currently processing another order") =
      false := by
  exact ⟨by decide, rfl⟩

/-- Claim C7 (amended): when the validator (or any step of the unit of work)
raises a typed error, the coordinator aborts the unit of work - the database
is returned unchanged - but it does not propagate the error unchanged: the
service wraps it into `OrderProcessingError` whose message embeds the
original message (and errors raised inside the DAO are wrapped twice). -/
theorem C7_error_wrapping (pe : Option PyError) (db : DB)
    (req : OrderCreateRequest) (sid : Option String) (uid : Option Uid) :
    (∀ e, svc_validate_order_request db req = .error e →
      create_order pe db req sid uid =
        (.error (.orderProcessing ("Failed to create order: " ++ e.message)), db)) ∧
    (∀ r, (create_order pe db req sid uid).1 = .error r →
      ∃ msg, r = .orderProcessing msg) := by
  constructor
  · intro e he
    exact create_order_wrap_of_svc_error pe db req sid uid e he
  · intro r hr
    obtain ⟨e, htxn⟩ := create_order_txn_isError pe db req sid uid
    unfold create_order at hr
    rw [htxn] at hr
    simp only [Except.error.injEq] at hr
    exact ⟨_, hr.symm⟩

/-- Witness for C7: on the concrete request referencing the nonexistent
ingredient 99, the validator raises `ValidationError` and the surfaced error
is the wrap of its message; the database is unchanged. -/
theorem C7_witness :
    create_order none dbA reqBadIng none none =
      (.error (.orderProcessing ("Failed to create order: " ++
        PyError.message (.validationError "Ingredient 99 not found"))), dbA) :=
  (C7_error_wrapping none dbA reqBadIng none none).1
    (.validationError "Ingredient 99 not found") (by decide)

/-- Counterexample for C7 as stated: the validator's typed error
(`ValidationError "Ingredient 99 not found"`) is not what the caller
receives - the surfaced error is an `OrderProcessingError` with a different
type and message, so the error is not propagated unchanged. -/
theorem C7_counterexample :
    svc_validate_order_request dbA reqBadIng =
      .error (.validationError "Ingredient 99 not found") ∧
    create_order none dbA reqBadIng none none =
      (.error (.orderProcessing "Failed to create order: Ingredient 99 not found"),
        dbA) ∧
    PyError.orderProcessing "Failed to create order: Ingredient 99 not found" ≠
      PyError.validationError "Ingredient 99 not found" := by
  exact ⟨by decide, by decide, by decide⟩

/-- Claim C8 (code bug): the claim requires that when validation, deduction,
and persistence all succeed but publishing fails, the order remains created
with the deduction in effect.  In this snapshot that situation is
unreachable: regardless of the publish channel's behaviour `pe` (success or
any raised error), creating even the fully valid order `reqA` fails with the
doubly wrapped `TypeError` of the mis-called `deduct_stock` and rolls the
whole state back - the dispatch step is never reached, and a publish failure
that were reached would abort the transaction rather than be logged. -/
theorem C8_dispatch_unreachable (pe : Option PyError) :
    create_order pe dbA reqA none none =
      (.error (.orderProcessing ("Failed to create order: Failed to create order: " ++
        deductStockArityError.message)), dbA) :=
  create_order_dbA pe

/-- Claim C9: the renderer is a pure function of the order aggregate and the
liquid list (two calls on the same arguments yield the same string), and on
Scenario C's order (session `smoothie-abc`, ingredient line Banana 150ml,
add-on ProteinPowder x1, no liquids) it renders exactly the claimed tokens
in order, joined by ", ". -/
theorem C9_renderer (o : OrderRow) (items : List LoadedOrderItem)
    (addons : List LoadedOrderAddon) (liquids : List Liquid) :
    generate_order_string o items addons liquids =
      generate_order_string o items addons liquids ∧
    generate_order_string c9order
      [{ ingredient := some bananaIng, qty_ml := 150, grams_used := 150 }]
      [{ addon := some proteinAddon, qty := 1 }] [] =
      "Order #12345678 - 1 cup, dispense Banana 150ml, add ProteinPowder x1, move to next chamber, add finishing touches - 2025-01-01 12:00:00" := by
  exact ⟨rfl, by decide⟩

lemma map_eq_self {α : Type} (l : List α) (f : α → α) (h : ∀ a, f a = a) :
    l.map f = l := by
  induction l with
  | nil => rfl
  | cons a l ih => simp [h, ih]

lemma ingRestoreAmount_qty_irrel (mid : Option Uid) (r : IngStockRow) (x : Int) :
    ∀ items, ingRestoreAmount mid { r with qty_available_g := x } items =
      ingRestoreAmount mid r items := by
  intro items
  induction items with
  | nil => rfl
  | cons it rest ih =>
    cases h : it.ingredient_id <;> simp [ingRestoreAmount, h, ih]

lemma addRestoreAmount_qty_irrel (mid : Option Uid) (r : AddStockRow) (x : Int) :
    ∀ addons, addRestoreAmount mid { r with qty_available := x } addons =
      addRestoreAmount mid r addons := by
  intro addons
  induction addons with
  | nil => rfl
  | cons a rest ih =>
    cases h : a.addon_id <;> simp [addRestoreAmount, h, ih]

lemma restoreItemsLoop_rows (mid : Option Uid) :
    ∀ (items : List OrderItemRow) (db : DB),
      (restoreItemsLoop mid db items).machine_ingredients =
        db.machine_ingredients.map
          (fun r => { r with qty_available_g :=
            r.qty_available_g + ingRestoreAmount mid r items }) := by
  intro items
  induction items with
  | nil =>
    intro db
    simp only [restoreItemsLoop, ingRestoreAmount]
    exact (map_eq_self _ _ (fun r => by simp)).symm
  | cons it rest ih =>
    intro db
    cases h : it.ingredient_id with
    | none =>
      simp only [restoreItemsLoop, h]
      rw [ih]
      apply List.map_congr_left
      intro r _
      simp [ingRestoreAmount, h]
    | some iid =>
      simp only [restoreItemsLoop, h]
      rw [ih]
      simp only [shiftIngStock, List.map_map]
      apply List.map_congr_left
      intro r _
      simp only [Function.comp]
      by_cases hc : (some r.machine_id == mid && r.ingredient_id == iid) = true
      · simp [hc, ingRestoreAmount, h, ingRestoreAmount_qty_irrel]
        omega
      · simp [hc, ingRestoreAmount, h]

lemma restoreAddonsLoop_rows (mid : Option Uid) :
    ∀ (addons : List OrderAddonRow) (db : DB),
      (restoreAddonsLoop mid db addons).machine_addons =
        db.machine_addons.map
          (fun r => { r with qty_available :=
            r.qty_available + addRestoreAmount mid r addons }) := by
  intro addons
  induction addons with
  | nil =>
    intro db
    simp only [restoreAddonsLoop, addRestoreAmount]
    exact (map_eq_self _ _ (fun r => by simp)).symm
  | cons a rest ih =>
    intro db
    cases h : a.addon_id with
    | none =>
      simp only [restoreAddonsLoop, h]
      rw [ih]
      apply List.map_congr_left
      intro r _
      simp [addRestoreAmount, h]
    | some aid =>
      simp only [restoreAddonsLoop, h]
      rw [ih]
      simp only [shiftAddStock, List.map_map]
      apply List.map_congr_left
      intro r _
      simp only [Function.comp]
      by_cases hc : (some r.machine_id == mid && r.addon_id == aid) = true
      · simp [hc, addRestoreAmount, h, addRestoreAmount_qty_irrel]
        omega
      · simp [hc, addRestoreAmount, h]

lemma restoreItemsLoop_machine_addons (mid : Option Uid) :
    ∀ (items : List OrderItemRow) (db : DB),
      (restoreItemsLoop mid db items).machine_addons = db.machine_addons := by
  intro items
  induction items with
  | nil => intro db; rfl
  | cons it rest ih =>
    intro db
    cases h : it.ingredient_id <;> simp [restoreItemsLoop, h, ih, shiftIngStock]

lemma restoreAddonsLoop_machine_ingredients (mid : Option Uid) :
    ∀ (addons : List OrderAddonRow) (db : DB),
      (restoreAddonsLoop mid db addons).machine_ingredients =
        db.machine_ingredients := by
  intro addons
  induction addons with
  | nil => intro db; rfl
  | cons a rest ih =>
    intro db
    cases h : a.addon_id <;> simp [restoreAddonsLoop, h, ih, shiftAddStock]

lemma handle_order_cancellation_spec (db : DB) (oid : Uid) (o : OrderRow)
    (hord : getOrder db oid = some o) :
    (handle_order_cancellation db oid).machine_ingredients =
      db.machine_ingredients.map
        (fun r => { r with qty_available_g :=
          r.qty_available_g + ingRestoreAmount o.machine_id r (itemsOfOrder db oid) }) ∧
    (handle_order_cancellation db oid).machine_addons =
      db.machine_addons.map
        (fun r => { r with qty_available :=
          r.qty_available + addRestoreAmount o.machine_id r (addonsOfOrder db oid) }) := by
  simp only [handle_order_cancellation, hord]
  constructor
  · rw [restoreAddonsLoop_machine_ingredients, restoreItemsLoop_rows]
  · rw [restoreAddonsLoop_rows, restoreItemsLoop_machine_addons]

/-- Claim C10: the cancellation/failure compensation restores, per stock
entry, exactly the sum of the amounts of the order's lines whose item
reference is non-null; a line whose `ingredient_id` / `addon_id` is NULL
(catalog item deleted after the order was created) contributes nothing, and
the remaining lines of the same order are still restored in full. -/
theorem C10_compensation_skips_null (db : DB) (oid : Uid) (o : OrderRow)
    (hord : getOrder db oid = some o) :
    ((handle_order_cancellation db oid).machine_ingredients =
      db.machine_ingredients.map
        (fun r => { r with qty_available_g :=
          r.qty_available_g + ingRestoreAmount o.machine_id r (itemsOfOrder db oid) }) ∧
     (handle_order_cancellation db oid).machine_addons =
      db.machine_addons.map
        (fun r => { r with qty_available :=
          r.qty_available + addRestoreAmount o.machine_id r (addonsOfOrder db oid) })) ∧
    (∀ (it : OrderItemRow) (rest : List OrderItemRow) (r : IngStockRow)
        (mid : Option Uid), it.ingredient_id = none →
      ingRestoreAmount mid r (it :: rest) = ingRestoreAmount mid r rest) ∧
    (∀ (a : OrderAddonRow) (rest : List OrderAddonRow) (r : AddStockRow)
        (mid : Option Uid), a.addon_id = none →
      addRestoreAmount mid r (a :: rest) = addRestoreAmount mid r rest) := by
  refine ⟨handle_order_cancellation_spec db oid o hord, ?_, ?_⟩
  · intro it rest r mid h
    simp [ingRestoreAmount, h]
  · intro a rest r mid h
    simp [addRestoreAmount, h]

/-- Witness for C10: cancelling concrete order 8 (one nulled 70g line, one
live 30g line on ingredient 1, one nulled add-on line) restores only the
30g: ingredient stock goes from 500 to 530 and the add-on stock is
untouched. -/
theorem C10_witness :
    (handle_order_cancellation dbC10 8).machine_ingredients =
      [{ machine_id := 1, ingredient_id := 1, qty_available_g := 530,
         low_stock_threshold_g := 100 }] ∧
    (handle_order_cancellation dbC10 8).machine_addons =
      dbC10.machine_addons := by
  have h := C10_compensation_skips_null dbC10 8
    { id := 8, machine_id := some 1, user_id := none, session_id := none,
      status := "processing", total_price := 10, total_calories := 100,
      created_at := none } (by decide)
  refine ⟨?_, ?_⟩
  · rw [h.1.1]
    decide
  · rw [h.1.2]
    decide

lemma ingReqAmount_qty_irrel (mid : Option Uid) (r : IngStockRow) (x : Int) :
    ∀ reqs, ingReqAmount mid { r with qty_available_g := x } reqs =
      ingReqAmount mid r reqs := by
  intro reqs
  induction reqs with
  | nil => rfl
  | cons req rest ih => simp [ingReqAmount, ih]

lemma addReqAmount_qty_irrel (mid : Option Uid) (r : AddStockRow) (x : Int) :
    ∀ reqs, addReqAmount mid { r with qty_available := x } reqs =
      addReqAmount mid r reqs := by
  intro reqs
  induction reqs with
  | nil => rfl
  | cons req rest ih => simp [addReqAmount, ih]

lemma ingReqAmount_key (mid : Option Uid) (r2 r : IngStockRow)
    (hm : r2.machine_id = r.machine_id) (hi : r2.ingredient_id = r.ingredient_id) :
    ∀ reqs, ingReqAmount mid r2 reqs = ingReqAmount mid r reqs := by
  intro reqs
  induction reqs with
  | nil => rfl
  | cons req rest ih => simp [ingReqAmount, hm, hi, ih]

lemma addReqAmount_key (mid : Option Uid) (r2 r : AddStockRow)
    (hm : r2.machine_id = r.machine_id) (hi : r2.addon_id = r.addon_id) :
    ∀ reqs, addReqAmount mid r2 reqs = addReqAmount mid r reqs := by
  intro reqs
  induction reqs with
  | nil => rfl
  | cons req rest ih => simp [addReqAmount, hm, hi, ih]

lemma deductIngredientsLoop_ok_rows (m : Uid) :
    ∀ (reqs : List IngredientReq) (db db2 : DB),
      deductIngredientsLoop db m reqs = .ok db2 →
      db2.machine_ingredients =
        db.machine_ingredients.map
          (fun r => { r with qty_available_g :=
            r.qty_available_g - ingReqAmount (some m) r reqs }) ∧
      db2.machine_addons = db.machine_addons ∧
      db2.orders = db.orders ∧
      db2.order_items = db.order_items ∧
      db2.order_addons = db.order_addons := by
  intro reqs
  induction reqs with
  | nil =>
    intro db db2 h
    simp only [deductIngredientsLoop] at h
    injection h with h
    subst h
    refine ⟨?_, rfl, rfl, rfl, rfl⟩
    exact (map_eq_self _ _ (fun r => by simp [ingReqAmount])).symm
  | cons req rest ih =>
    intro db db2 h
    rw [deductIngredientsLoop] at h
    split at h
    · exact absurd h (by simp)
    · split at h
      · exact absurd h (by simp)
      · obtain ⟨h1, h2, h3, h4, h5⟩ := ih _ _ h
        refine ⟨?_, h2, h3, h4, h5⟩
        rw [h1]
        simp only [shiftIngStock, List.map_map]
        apply List.map_congr_left
        intro r _
        simp only [Function.comp]
        by_cases hc : r.machine_id = m ∧ r.ingredient_id = req.ingredient_id
        · have hkey := ingReqAmount_key (some m)
            { machine_id := m, ingredient_id := req.ingredient_id,
              qty_available_g := r.qty_available_g + -req.grams_used,
              low_stock_threshold_g := r.low_stock_threshold_g } r
            (by simp [hc.1]) (by simp [hc.2])
          simp [hc, ingReqAmount, hkey]
          omega
        · simp [hc, ingReqAmount, ingReqAmount_qty_irrel]

lemma deductAddonsLoop_ok_rows (m : Uid) :
    ∀ (reqs : List AddonReq) (db db2 : DB),
      deductAddonsLoop db m reqs = .ok db2 →
      db2.machine_addons =
        db.machine_addons.map
          (fun r => { r with qty_available :=
            r.qty_available - addReqAmount (some m) r reqs }) ∧
      db2.machine_ingredients = db.machine_ingredients ∧
      db2.orders = db.orders ∧
      db2.order_items = db.order_items ∧
      db2.order_addons = db.order_addons := by
  intro reqs
  induction reqs with
  | nil =>
    intro db db2 h
    simp only [deductAddonsLoop] at h
    injection h with h
    subst h
    refine ⟨?_, rfl, rfl, rfl, rfl⟩
    exact (map_eq_self _ _ (fun r => by simp [addReqAmount])).symm
  | cons req rest ih =>
    intro db db2 h
    rw [deductAddonsLoop] at h
    split at h
    · exact absurd h (by simp)
    · split at h
      · exact absurd h (by simp)
      · obtain ⟨h1, h2, h3, h4, h5⟩ := ih _ _ h
        refine ⟨?_, h2, h3, h4, h5⟩
        rw [h1]
        simp only [shiftAddStock, List.map_map]
        apply List.map_congr_left
        intro r _
        simp only [Function.comp]
        by_cases hc : r.machine_id = m ∧ r.addon_id = req.addon_id
        · have hkey := addReqAmount_key (some m)
            { machine_id := m, addon_id := req.addon_id,
              qty_available := r.qty_available + -req.qty,
              low_stock_threshold := r.low_stock_threshold } r
            (by simp [hc.1]) (by simp [hc.2])
          simp [hc, addReqAmount, hkey]
          omega
        · simp [hc, addReqAmount, addReqAmount_qty_irrel]

lemma deduct_stock_ok_rows (m : Uid) (reqs : List IngredientReq)
    (areqs : List AddonReq) (db db2 : DB)
    (h : deduct_stock db m reqs areqs = .ok db2) :
    db2.machine_ingredients =
      db.machine_ingredients.map
        (fun r => { r with qty_available_g :=
          r.qty_available_g - ingReqAmount (some m) r reqs }) ∧
    db2.machine_addons =
      db.machine_addons.map
        (fun r => { r with qty_available :=
          r.qty_available - addReqAmount (some m) r areqs }) := by
  unfold deduct_stock at h
  cases hi : deductIngredientsLoop db m reqs with
  | error e =>
    rw [hi] at h
    exact absurd h (by simp)
  | ok db1 =>
    rw [hi] at h
    obtain ⟨hrows, haddons, _, _, _⟩ := deductIngredientsLoop_ok_rows m reqs db db1 hi
    obtain ⟨harows, hings, _, _, _⟩ := deductAddonsLoop_ok_rows m areqs db1 db2 h
    exact ⟨by rw [hings, hrows], by rw [harows, haddons]⟩

lemma ingRestoreAmount_of_reqs (mid : Option Uid) (r : IngStockRow) (oid : Uid) :
    ∀ reqs : List IngredientReq,
      ingRestoreAmount mid r (reqs.map (reqToOrderItem oid)) =
        ingReqAmount mid r reqs := by
  intro reqs
  induction reqs with
  | nil => rfl
  | cons req rest ih => simp [ingRestoreAmount, ingReqAmount, reqToOrderItem, ih]

lemma addRestoreAmount_of_reqs (mid : Option Uid) (r : AddStockRow) (oid : Uid) :
    ∀ reqs : List AddonReq,
      addRestoreAmount mid r (reqs.map (reqToOrderAddon oid)) =
        addReqAmount mid r reqs := by
  intro reqs
  induction reqs with
  | nil => rfl
  | cons req rest ih => simp [addRestoreAmount, addReqAmount, reqToOrderAddon, ih]

/-- Claim C4: cancelling or failing an order whose persisted lines mirror the
deducted request restores each stock entry to its pre-deduction value: if
`deduct_stock` succeeded on the request, and the order's lines are exactly
the persisted images of that request (all item references non-null), then
transitioning the order from `processing` to `cancelled` or `failed`
succeeds and returns both stock tables to their values before the
deduction. -/
theorem C4_conservation (db db1 db2 : DB) (m oid : Uid)
    (reqs : List IngredientReq) (areqs : List AddonReq) (o : OrderRow)
    (st : String)
    (hded : deduct_stock db m reqs areqs = .ok db1)
    (hord : getOrder db2 oid = some o)
    (host : o.status = "processing")
    (hom : o.machine_id = some m)
    (hing : db2.machine_ingredients = db1.machine_ingredients)
    (hadd : db2.machine_addons = db1.machine_addons)
    (hitems : itemsOfOrder db2 oid = reqs.map (reqToOrderItem oid))
    (haddons : addonsOfOrder db2 oid = areqs.map (reqToOrderAddon oid))
    (hst : st = "cancelled" ∨ st = "failed") :
    ∃ o2 db3, update_order_status db2 oid st = (.ok o2, db3) ∧
      db3.machine_ingredients = db.machine_ingredients ∧
      db3.machine_addons = db.machine_addons := by
  have hmem : st ∈ allowedTargets o.status := by
    rw [host]
    rcases hst with h | h <;> subst h <;> decide
  have hv : validate_status_transition o.status st = .ok () := by
    unfold validate_status_transition
    rw [if_pos hmem]
  have hord1 : getOrder (setOrderStatus db2 oid st) oid =
      some { o with status := st } := by
    rw [getOrder_setOrderStatus, hord]
    rfl
  obtain ⟨hri, hra⟩ := handle_order_cancellation_spec (setOrderStatus db2 oid st)
    oid { o with status := st } hord1
  have hIng : (handle_order_cancellation (setOrderStatus db2 oid st) oid).machine_ingredients =
      db.machine_ingredients := by
    rw [hri]
    have e1 : (setOrderStatus db2 oid st).machine_ingredients =
        db1.machine_ingredients := hing
    have e2 : itemsOfOrder (setOrderStatus db2 oid st) oid =
        reqs.map (reqToOrderItem oid) := hitems
    have e3 : ({ o with status := st } : OrderRow).machine_id = some m := hom
    rw [e1, e2, e3, (deduct_stock_ok_rows m reqs areqs db db1 hded).1,
      List.map_map]
    apply map_eq_self
    intro r
    simp only [Function.comp]
    rw [ingRestoreAmount_qty_irrel, ingRestoreAmount_of_reqs]
    rw [sub_add_cancel]
  have hAdd : (handle_order_cancellation (setOrderStatus db2 oid st) oid).machine_addons =
      db.machine_addons := by
    rw [hra]
    have e1 : (setOrderStatus db2 oid st).machine_addons =
        db1.machine_addons := hadd
    have e2 : addonsOfOrder (setOrderStatus db2 oid st) oid =
        areqs.map (reqToOrderAddon oid) := haddons
    have e3 : ({ o with status := st } : OrderRow).machine_id = some m := hom
    rw [e1, e2, e3, (deduct_stock_ok_rows m reqs areqs db db1 hded).2,
      List.map_map]
    apply map_eq_self
    intro r
    simp only [Function.comp]
    rw [addRestoreAmount_qty_irrel, addRestoreAmount_of_reqs]
    rw [sub_add_cancel]
  have hupd : update_order_status db2 oid st =
      (.ok ((getOrder (handle_order_cancellation (setOrderStatus db2 oid st) oid)
          oid).getD { o with status := st }),
        handle_order_cancellation (setOrderStatus db2 oid st) oid) := by
    simp only [update_order_status, update_order_status_body, hord, hv]
    rcases hst with h | h <;> subst h <;> simp
  exact ⟨_, _, hupd, hIng, hAdd⟩

/-- Witness for C4 (Scenario B round-trip): deducting the order's lines from
`dbA` leaves 400g/4 units (`dbC4mid`); with the order and its lines
persisted (`dbC4pre`), cancelling order 20 returns both stock tables to
`dbA`'s values (500g and 5 units). -/
theorem C4_witness :
    ∃ o2 db3, update_order_status dbC4pre 20 "cancelled" = (.ok o2, db3) ∧
      db3.machine_ingredients = dbA.machine_ingredients ∧
      db3.machine_addons = dbA.machine_addons :=
  C4_conservation dbA dbC4mid dbC4pre 1 20
    [{ ingredient_id := 1, grams_used := 100, calories := 80 }]
    [{ addon_id := 2, qty := 1, calories := 20 }]
    { id := 20, machine_id := some 1, user_id := none, session_id := none,
      status := "processing", total_price := 10, total_calories := 100,
      created_at := none }
    "cancelled" (by decide) (by decide) rfl rfl rfl rfl (by decide) (by decide)
    (Or.inl rfl)
